import Mathlib

/-!
Shallow embedding of the `myperro-step` HTTP ingestion service (two source
iterations: `part_000` with a foreign-key-linked metrics table, and
`src/server.js` with a collar-id-linked metrics table).

JavaScript machine floats are idealised as exact rationals (`ℚ`); string
number parsing follows the ECMAScript `Number(string)` grammar (decimal
literals with optional sign, fraction and exponent, `Infinity`, and
unsigned hex/octal/binary literals).  Query parameters are `Option String`
(`none` = the parameter is absent, i.e. `undefined`).  JSON body values are
modelled by the scalar JavaScript values (`undefined`, `null`, booleans,
numbers, strings); nested objects and arrays play no role in the claims.
Database effects are modelled by explicit state passing on a record of
tables, with store failures injected through explicit `Option String`
error arguments (one per SQL statement that the handler issues).
-/

/-- A JavaScript number: `NaN`, the two infinities, or a finite value
(idealised as an exact rational). -/
inductive JSNum where
  | nan : JSNum
  | posInf : JSNum
  | negInf : JSNum
  | finite : ℚ → JSNum
deriving DecidableEq, Repr

/-- Is this JavaScript number finite?  (`Number.isFinite`) -/
def JSNum.isFinite : JSNum → Bool
  | .finite _ => true
  | _ => false

/-- A scalar JavaScript value as it appears in query strings and JSON
bodies. -/
inductive JSVal where
  | undefined : JSVal
  | null : JSVal
  | boolV : Bool → JSVal
  | numV : JSNum → JSVal
  | strV : String → JSVal
deriving DecidableEq, Repr

/-- JavaScript truthiness of a value (`!v` is the negation of this). -/
def JSVal.truthy : JSVal → Bool
  | .undefined => false
  | .null => false
  | .boolV b => b
  | .numV .nan => false
  | .numV .posInf => true
  | .numV .negInf => true
  | .numV (.finite q) => q ≠ 0
  | .strV s => s ≠ ""

/-- The whitespace characters stripped by `Number(string)` and `parseInt`
(the common ASCII ones plus no-break space and the BOM). -/
def isJsWhitespace (c : Char) : Bool :=
  c = ' ' || c = '\t' || c = '\n' || c = '\r' || c = '\u000b' || c = '\u000c' ||
  c = ' ' || c = '﻿'

/-- Numeric value of a list of decimal digit characters. -/
def digitsVal (l : List Char) : Nat :=
  l.foldl (fun a c => 10 * a + (c.toNat - 48)) 0

/-- Numeric value of a list of digit characters in a given base,
each digit already validated. -/
def radixVal (base : Nat) (l : List Char) : Nat :=
  l.foldl (fun a c =>
    base * a + (if c.toNat ≥ 97 then c.toNat - 87
                else if c.toNat ≥ 65 then c.toNat - 55
                else c.toNat - 48)) 0

/-- Is `c` a digit of the given base (10, 16, 8 or 2)? -/
def isRadixDigit (base : Nat) (c : Char) : Bool :=
  match base with
  | 16 => c.isDigit || ('a' ≤ c && c ≤ 'f') || ('A' ≤ c && c ≤ 'F')
  | 8 => '0' ≤ c && c ≤ '7'
  | 2 => c = '0' || c = '1'
  | _ => c.isDigit

/-- Parse the exponent suffix of a decimal literal: either empty, or
`e`/`E` followed by an optional sign and a nonempty digit string,
consuming the whole input.  Returns the exponent. -/
def parseExpPart : List Char → Option Int
  | [] => some 0
  | c :: rest =>
    if c = 'e' || c = 'E' then
      match rest with
      | '+' :: ds =>
        if ds ≠ [] && ds.all (·.isDigit) then some (digitsVal ds) else none
      | '-' :: ds =>
        if ds ≠ [] && ds.all (·.isDigit) then some (-(digitsVal ds : Int)) else none
      | ds =>
        if ds ≠ [] && ds.all (·.isDigit) then some (digitsVal ds) else none
    else none

/-- The rational `±m · 10^exp`, built with `Rat.divInt` so that it
evaluates by integer arithmetic (the mantissa `m` collects the integer
and fraction digits; `exp` already accounts for the fraction length). -/
def decValue (neg : Bool) (m : Nat) (exp : Int) : ℚ :=
  let mz : Int := if neg then -(m : Int) else (m : Int)
  if 0 ≤ exp then Rat.divInt (mz * (10 : Int) ^ exp.toNat) 1
  else Rat.divInt mz ((10 : Int) ^ (-exp).toNat)

/-- Parse an unsigned decimal literal (digits, optional `.` and fraction
digits, optional exponent), consuming the whole input; `neg` applies the
already-consumed sign. -/
def parseDecBody (neg : Bool) (l : List Char) : Option ℚ :=
  let ip := l.takeWhile (·.isDigit)
  let r1 := l.dropWhile (·.isDigit)
  match r1 with
  | '.' :: r2 =>
    let fp := r2.takeWhile (·.isDigit)
    let r3 := r2.dropWhile (·.isDigit)
    if ip = [] && fp = [] then none
    else
      (parseExpPart r3).map fun e =>
        decValue neg (digitsVal (ip ++ fp)) (e - fp.length)
  | _ =>
    if ip = [] then none
    else (parseExpPart r1).map fun e => decValue neg (digitsVal ip) e

/-- Parse an optionally signed decimal literal or `Infinity`,
consuming the whole input. -/
def parseSignedDec (l : List Char) : JSNum :=
  let core : List Char → Bool → JSNum := fun body neg =>
    if body = "Infinity".data then (if neg then .negInf else .posInf)
    else match parseDecBody neg body with
      | some q => .finite q
      | none => .nan
  match l with
  | '+' :: r => core r false
  | '-' :: r => core r true
  | r => core r false

/-- The `Number(string)` coercion: trim JavaScript whitespace; empty means 0; an
unsigned `0x`/`0o`/`0b` literal is parsed in its base; otherwise an
optionally signed decimal literal or `Infinity`; anything else is NaN. -/
def jsStringToNumber (s : String) : JSNum :=
  let t := ((s.data.dropWhile isJsWhitespace).reverse.dropWhile isJsWhitespace).reverse
  match t with
  | [] => .finite 0
  | '0' :: c :: rest =>
    if c = 'x' || c = 'X' then
      if rest ≠ [] && rest.all (isRadixDigit 16) then
        .finite (Rat.divInt (radixVal 16 rest) 1) else .nan
    else if c = 'o' || c = 'O' then
      if rest ≠ [] && rest.all (isRadixDigit 8) then
        .finite (Rat.divInt (radixVal 8 rest) 1) else .nan
    else if c = 'b' || c = 'B' then
      if rest ≠ [] && rest.all (isRadixDigit 2) then
        .finite (Rat.divInt (radixVal 2 rest) 1) else .nan
    else parseSignedDec t
  | _ => parseSignedDec t

/-- The ToNumber coercion on scalar JavaScript values. -/
def jsToNumber : JSVal → JSNum
  | .undefined => .nan
  | .null => .finite 0
  | .boolV b => .finite (if b then 1 else 0)
  | .numV n => n
  | .strV s => jsStringToNumber s

/-- Function `toNum` from both source files:
`if (v === undefined || v === null || v === '') return null;
 const n = Number(v); return Number.isFinite(n) ? n : null;` -/
def toNum (v : JSVal) : Option ℚ :=
  if v = .undefined ∨ v = .null ∨ v = .strV "" then none
  else
    match jsToNumber v with
    | .finite q => some q
    | _ => none

/-- Coercion `toNum` applied to a query-string parameter (absent = `undefined`). -/
def toNumQ (v : Option String) : Option ℚ :=
  toNum (match v with | none => .undefined | some s => .strV s)

/-- Truthiness of a query-string parameter (`!p`): present and nonempty. -/
def truthyQ : Option String → Bool
  | none => false
  | some s => s ≠ ""

/-- The `parseInt(s, 10)` coercion: trim whitespace, optional sign, then the longest
leading run of decimal digits; `none` models NaN (no digits). -/
def parseIntTen (s : String) : Option Int :=
  let t := s.data.dropWhile isJsWhitespace
  let core : List Char → Option Nat := fun l =>
    let ds := l.takeWhile (·.isDigit)
    if ds = [] then none else some (digitsVal ds)
  match t with
  | '+' :: r => (core r).map fun n => (n : Int)
  | '-' :: r => (core r).map fun n => -(n : Int)
  | r => (core r).map fun n => (n : Int)

/-- Defaulting `x || d` on the result of `parseInt`: NaN and 0 are falsy, so both
fall back to the default. -/
def orDefault (v : Option Int) (d : Int) : Int :=
  match v with
  | none => d
  | some x => if x = 0 then d else x

/-! ## First source iteration (`src/unnamed/part_000`):
foreign-key-linked metrics, routes `/ingest`, `/` and `/by-collar`. -/

/-- A row of `input_readings` as created by `part_000` (all values come
from query-string parameters; `created_at` is the server-assigned
transaction timestamp, modelled as an abstract tick). -/
structure ReadingRow where
  id : Nat
  collar_id : Option String
  dog_name : String
  breed : Option String
  coat_type : Option String
  height : Option ℚ
  weight : Option ℚ
  sex : Option String
  temperature_irgun : Option ℚ
  collar_orientation : Option String
  created_at : Nat
deriving DecidableEq, Repr

/-- A row of `output_metrics` in the foreign-key schema
(`input_id BIGINT NOT NULL REFERENCES input_readings(id)`). -/
structure MetricFkRow where
  id : Nat
  input_id : Nat
  temperature : Option ℚ
  stepcount : Option ℚ
  caloriecount : Option ℚ
  created_at : Nat
deriving DecidableEq, Repr

/-- The database state of the first iteration: the two tables plus the
`BIGSERIAL` counters. -/
structure Db0 where
  readings : List ReadingRow
  metrics : List MetricFkRow
  nextReadingId : Nat
  nextMetricId : Nat
deriving DecidableEq, Repr

/-- The query parameters accepted by `GET /ingest`
(absent parameter = `none`). -/
structure IngestReq where
  coat_type : Option String
  breed : Option String
  collar_id : Option String
  dog_name : Option String
  height : Option String
  weight : Option String
  sex : Option String
  temperature_irgun : Option String
  collar_orientation : Option String
  temperature : Option String
  stepcount : Option String
  caloriecount : Option String
deriving DecidableEq, Repr

/-- A row of the `LEFT JOIN` issued by `GET /by-collar`: a reading and
its optional joined metric. -/
structure JoinRow where
  reading : ReadingRow
  metric : Option MetricFkRow
deriving DecidableEq, Repr

/-- Responses of the first iteration's routes, by status and payload. -/
inductive Resp0 where
  | badRequest : String → Resp0
  | serverError : String → Resp0
  | okIngest : ReadingRow → Option MetricFkRow → Resp0
  | okPage : Nat → List JoinRow → Resp0
  | okRoot : String → Resp0
deriving DecidableEq, Repr

/-- The `input_readings` row built by `GET /ingest` from the request
(`?? null` on text fields, `toNum` on numeric fields). -/
def mkReading (req : IngestReq) (rid now : Nat) : ReadingRow :=
  { id := rid
    collar_id := req.collar_id
    dog_name := req.dog_name.getD ""
    breed := req.breed
    coat_type := req.coat_type
    height := toNumQ req.height
    weight := toNumQ req.weight
    sex := req.sex
    temperature_irgun := toNumQ req.temperature_irgun
    collar_orientation := req.collar_orientation
    created_at := now }

/-- The `output_metrics` row built by `GET /ingest`, linked to the
reading inserted in the same transaction. -/
def mkMetricFk (req : IngestReq) (inputId mid now : Nat) : MetricFkRow :=
  { id := mid
    input_id := inputId
    temperature := toNumQ req.temperature
    stepcount := toNumQ req.stepcount
    caloriecount := toNumQ req.caloriecount
    created_at := now }

/-- The guard of the optional metric insert in `GET /ingest`:
`tempOutN !== null || stepN !== null || kcalN !== null`. -/
def metricCond (req : IngestReq) : Bool :=
  (toNumQ req.temperature).isSome || (toNumQ req.stepcount).isSome ||
    (toNumQ req.caloriecount).isSome

/-- Handler of `GET /ingest` (`part_000`).  Store failures are injected
through `failInput`, `failOutput` and `failCommit` (the error message of
the corresponding SQL statement when it fails, `none` when it
succeeds); any failure inside the transaction rolls the whole
transaction back, leaving the database unchanged. -/
def ingestHandler (req : IngestReq) (db : Db0) (now : Nat)
    (failInput failOutput failCommit : Option String) : Resp0 × Db0 :=
  if truthyQ req.dog_name = false then
    (.badRequest "dog_name is required", db)
  else
    match failInput with
    | some e => (.serverError e, db)
    | none =>
      let r := mkReading req db.nextReadingId now
      let db1 : Db0 :=
        { db with readings := db.readings ++ [r], nextReadingId := db.nextReadingId + 1 }
      if metricCond req then
        match failOutput with
        | some e => (.serverError e, db)
        | none =>
          let m := mkMetricFk req r.id db.nextMetricId now
          let db2 : Db0 :=
            { db1 with metrics := db.metrics ++ [m], nextMetricId := db.nextMetricId + 1 }
          match failCommit with
          | some e => (.serverError e, db)
          | none => (.okIngest r (some m), db2)
      else
        match failCommit with
        | some e => (.serverError e, db)
        | none => (.okIngest r none, db1)

/-- Handler of `GET /` (`part_000`): liveness message, no side effect. -/
def rootHandler0 (db : Db0) : Resp0 × Db0 :=
  (.okRoot "Use /ingest?... to store data into Neon Postgres", db)

/-- Effective `LIMIT`: `Math.max(1, Math.min(1000, parseInt(limit, 10) || 100))`
with the destructuring default `limit = '100'`. -/
def effLimit (limit : Option String) : Int :=
  max 1 (min 1000 (orDefault (parseIntTen (limit.getD "100")) 100))

/-- Effective `OFFSET`: `Math.max(0, parseInt(offset, 10) || 0)`
with the destructuring default `offset = '0'`. -/
def effOffset (offset : Option String) : Int :=
  max 0 (orDefault (parseIntTen (offset.getD "0")) 0)

/-- The query parameters accepted by `GET /by-collar`. -/
structure ByCollarReq where
  collar_id : Option String
  limit : Option String
  offset : Option String
deriving DecidableEq, Repr

/-- The rows of
`input_readings ir LEFT JOIN output_metrics om ON om.input_id = ir.id
WHERE ir.collar_id = $1` (unordered). -/
def joinRows (db : Db0) (cid : String) : List JoinRow :=
  (db.readings.filter (fun r => r.collar_id = some cid)).flatMap fun r =>
    let ms := db.metrics.filter (fun m => m.input_id = r.id)
    if ms.isEmpty then [⟨r, none⟩] else ms.map fun m => ⟨r, some m⟩

/-- The comparison `ORDER BY ir.created_at DESC, om.created_at DESC
NULLS LAST` as a Boolean: may `a` be listed before `b`?  (Descending on
the reading time, then descending on the metric time with a missing
metric listed after every present one.) -/
def pageLeB (a b : JoinRow) : Bool :=
  (decide (b.reading.created_at < a.reading.created_at)) ||
    ((decide (a.reading.created_at = b.reading.created_at)) &&
      (match a.metric, b.metric with
       | some x, some y => decide (y.created_at ≤ x.created_at)
       | some _, none => true
       | none, some _ => false
       | none, none => true))

/-- The ordering `ORDER BY ir.created_at DESC, om.created_at DESC NULLS
LAST` as a total preorder on join rows (`a` may be listed before `b`). -/
def pageLe (a b : JoinRow) : Prop := pageLeB a b = true

instance : DecidableRel pageLe := fun a b => instDecidableEqBool (pageLeB a b) true

instance : IsTotal JoinRow pageLe := by
  constructor
  intro a b
  unfold pageLe pageLeB
  cases a.metric <;> cases b.metric <;> simp <;> omega

instance : IsTrans JoinRow pageLe := by
  constructor
  intro a b c
  unfold pageLe pageLeB
  cases a.metric <;> cases b.metric <;> cases c.metric <;> simp <;> omega

/-- Handler of `GET /by-collar` (`part_000`): 400 when `collar_id` is
falsy, otherwise the sorted, paginated join (the embedding fixes one
deterministic realisation of the SQL ordering by sorting the join with
`List.insertionSort`, then applying `OFFSET` and `LIMIT`). -/
def byCollarHandler (req : ByCollarReq) (db : Db0) : Resp0 × Db0 :=
  if truthyQ req.collar_id = false then
    (.badRequest "collar_id is required", db)
  else
    let page :=
      (((joinRows db (req.collar_id.getD "")).insertionSort pageLe).drop
          (effOffset req.offset).toNat).take (effLimit req.limit).toNat
    (.okPage page.length page, db)

/-! ## Second source iteration (`src/src/server.js`):
collar-id-linked metrics, routes `POST /app`, `/`, `GET /collar` and
`GET /:num([1-6])`. -/

/-- The fields destructured from the `POST /app` JSON body (each either
absent or a scalar JSON value). -/
structure AppBody where
  collar_id : Option JSVal
  dog_name : Option JSVal
  breed : Option JSVal
  coat_type : Option JSVal
  height : Option JSVal
  weight : Option JSVal
  sex : Option JSVal
  temperature_irgun : Option JSVal
  collar_orientation : Option JSVal
deriving DecidableEq, Repr

/-- The body with every field absent. -/
def AppBody.empty : AppBody :=
  { collar_id := none, dog_name := none, breed := none, coat_type := none
    height := none, weight := none, sex := none, temperature_irgun := none
    collar_orientation := none }

/-- A request body as delivered by the JSON body parser: missing
(`undefined`), a scalar JSON value, or an object. -/
inductive BodyVal where
  | missing : BodyVal
  | nullB : BodyVal
  | boolB : Bool → BodyVal
  | numB : JSNum → BodyVal
  | strB : String → BodyVal
  | obj : AppBody → BodyVal
deriving DecidableEq, Repr

/-- The field extraction `const {...} = req.body || {}`: a falsy body is
replaced by `{}`, and destructuring a truthy primitive also yields only
absent fields, so every non-object body produces the empty field set. -/
def bodyFields : BodyVal → AppBody
  | .obj f => f
  | _ => AppBody.empty

/-- Truthiness of a possibly-absent JavaScript value (`!v`). -/
def truthyJ : Option JSVal → Bool
  | none => false
  | some v => v.truthy

/-- Coalescing `v ?? null`: nullish coalescing maps `undefined` and `null` to SQL
null and keeps every other value. -/
def coalesceNull : Option JSVal → Option JSVal
  | none => none
  | some .undefined => none
  | some .null => none
  | some v => some v

/-- Coercion `toNum` applied to a possibly-absent body field. -/
def toNumJ (v : Option JSVal) : Option ℚ :=
  toNum (v.getD .undefined)

/-- A row of `input_readings` as created by `POST /app`.  Text columns
keep the JavaScript value that was passed to the driver (the driver's
serialisation to SQL text is not modelled). -/
structure BodyReadingRow where
  id : Nat
  collar_id : Option JSVal
  dog_name : JSVal
  breed : Option JSVal
  coat_type : Option JSVal
  height : Option ℚ
  weight : Option ℚ
  sex : Option JSVal
  temperature_irgun : Option ℚ
  collar_orientation : Option JSVal
  created_at : Nat
deriving DecidableEq, Repr

/-- A row of `output_metrics` in the collar-id schema of `server.js`
(no foreign key; `npl_time` is the externally-supplied observation
timestamp, `created_at` the server-assigned one). -/
structure MetricCidRow where
  id : Nat
  collar_id : Option String
  temperature : Option ℚ
  stepcount : Option ℚ
  caloriecount : Option ℚ
  accel_x : Option ℚ
  accel_y : Option ℚ
  accel_z : Option ℚ
  gyro_x : Option ℚ
  gyro_y : Option ℚ
  gyro_z : Option ℚ
  npl_time : Option Int
  created_at : Nat
deriving DecidableEq, Repr

/-- The database state of the second iteration. -/
structure Db1 where
  readings : List BodyReadingRow
  metrics : List MetricCidRow
  nextReadingId : Nat
  nextMetricId : Nat
deriving DecidableEq, Repr

/-- Responses of the second iteration's routes, by status and payload. -/
inductive Resp1 where
  | badRequest : String → Resp1
  | serverError : String → Resp1
  | methodNotAllowed : String → Resp1
  | notFound : String → Resp1
  | okInserted : BodyReadingRow → Resp1
  | okOutput : MetricCidRow → Resp1
  | okLatest : Option BodyReadingRow → MetricCidRow → Resp1
  | okRoot : String → Resp1
deriving DecidableEq, Repr

/-- The `input_readings` row built by `POST /app` from the body
fields. -/
def mkBodyReading (f : AppBody) (rid now : Nat) : BodyReadingRow :=
  { id := rid
    collar_id := coalesceNull f.collar_id
    dog_name := f.dog_name.getD .undefined
    breed := coalesceNull f.breed
    coat_type := coalesceNull f.coat_type
    height := toNumJ f.height
    weight := toNumJ f.weight
    sex := coalesceNull f.sex
    temperature_irgun := toNumJ f.temperature_irgun
    collar_orientation := coalesceNull f.collar_orientation
    created_at := now }

/-- Handler of `POST /app`: validate `dog_name`, then a single-insert
transaction (store failures injected as in `ingestHandler`). -/
def appHandler (body : BodyVal) (db : Db1) (now : Nat)
    (failIns failCommit : Option String) : Resp1 × Db1 :=
  let f := bodyFields body
  if truthyJ f.dog_name = false then
    (.badRequest "dog_name is required", db)
  else
    match failIns with
    | some e => (.serverError e, db)
    | none =>
      let r := mkBodyReading f db.nextReadingId now
      match failCommit with
      | some e => (.serverError e, db)
      | none =>
        (.okInserted r,
          { db with readings := db.readings ++ [r], nextReadingId := db.nextReadingId + 1 })

/-- Handler of `GET /` (`server.js`). -/
def rootHandler1 (db : Db1) : Resp1 × Db1 :=
  (.okRoot "Use POST /app to store input_readings and GET /collar to query or send output metrics",
    db)

/-- The query parameters accepted by `GET /collar`. -/
structure CollarReq where
  collar_id : Option String
  limit : Option String
  offset : Option String
  temperature : Option String
  stepcount : Option String
  caloriecount : Option String
  accel_x : Option String
  accel_y : Option String
  accel_z : Option String
  gyro_x : Option String
  gyro_y : Option String
  gyro_z : Option String
  npl_time : Option String
deriving DecidableEq, Repr

/-- The guard of `GET /collar`'s insert branch: is any output metric
query parameter present (`!== undefined`)? -/
def hasOutputData (req : CollarReq) : Bool :=
  req.temperature.isSome || req.stepcount.isSome || req.caloriecount.isSome ||
    req.accel_x.isSome || req.accel_y.isSome || req.accel_z.isSome ||
    req.gyro_x.isSome || req.gyro_y.isSome || req.gyro_z.isSome ||
    req.npl_time.isSome

/-- The `output_metrics` row built by `GET /collar`.  `parseDate`
models `new Date(s)` on the strings this service receives (an invalid
date would surface as an injected store failure instead). -/
def mkMetricCid (parseDate : String → Int) (req : CollarReq) (mid now : Nat) : MetricCidRow :=
  { id := mid
    collar_id := req.collar_id
    temperature := toNumQ req.temperature
    stepcount := toNumQ req.stepcount
    caloriecount := toNumQ req.caloriecount
    accel_x := toNumQ req.accel_x
    accel_y := toNumQ req.accel_y
    accel_z := toNumQ req.accel_z
    gyro_x := toNumQ req.gyro_x
    gyro_y := toNumQ req.gyro_y
    gyro_z := toNumQ req.gyro_z
    npl_time :=
      match req.npl_time with
      | none => none
      | some s => if s = "" then none else some (parseDate s)
    created_at := now }

/-- Handler of `GET /collar` (`server.js`): 400 on falsy `collar_id`,
insert-only write when any output parameter is present, 405 otherwise. -/
def collarHandler (parseDate : String → Int) (req : CollarReq) (db : Db1) (now : Nat)
    (failIns : Option String) : Resp1 × Db1 :=
  if truthyQ req.collar_id = false then
    (.badRequest "collar_id is required", db)
  else if hasOutputData req then
    match failIns with
    | some e => (.serverError e, db)
    | none =>
      let m := mkMetricCid parseDate req db.nextMetricId now
      (.okOutput m,
        { db with metrics := db.metrics ++ [m], nextMetricId := db.nextMetricId + 1 })
  else
    (.methodNotAllowed "GET /collar is insert-only; provide output metric query parameters to insert",
      db)

/-- Pick the row that a `ORDER BY key DESC LIMIT 1` realises: a row
with maximal key (the earliest such row in table order). -/
def pickLatest (key : α → Int) : List α → Option α
  | [] => none
  | x :: xs =>
    match pickLatest key xs with
    | none => some x
    | some y => if key x < key y then some y else some x

/-- The sort key of `GET /:num`'s metric query:
`COALESCE(npl_time, created_at)`. -/
def metricKey (m : MetricCidRow) : Int :=
  m.npl_time.getD (m.created_at : Int)

/-- The metric row returned by
`SELECT ... FROM output_metrics WHERE collar_id = $1
ORDER BY COALESCE(npl_time, created_at) DESC LIMIT 1`. -/
def latestMetricFor (db : Db1) (cid : String) : Option MetricCidRow :=
  pickLatest metricKey (db.metrics.filter fun m => m.collar_id = some cid)

/-- The reading row returned by
`SELECT ... FROM input_readings WHERE collar_id = $1
ORDER BY created_at DESC LIMIT 1` (string comparison against the stored
value models the SQL text comparison). -/
def latestReadingFor (db : Db1) (cid : String) : Option BodyReadingRow :=
  pickLatest (fun r => (r.created_at : Int))
    (db.readings.filter fun r => r.collar_id = some (.strV cid))

/-- Handler of `GET /:num([1-6])` (`server.js`): 404 when the collar has
no metric, otherwise the latest metric together with the latest reading
(the reading may be absent and is then reported as null). -/
def numHandler (cid : String) (db : Db1) : Resp1 × Db1 :=
  match latestMetricFor db cid with
  | none => (.notFound "no output data for collar_id", db)
  | some m => (.okLatest (latestReadingFor db cid) m, db)

/-! ## Helper lemmas -/

theorem pickLatest_ne_none {α : Type} (key : α → Int) (x : α) (xs : List α) :
    pickLatest key (x :: xs) ≠ none := by
  unfold pickLatest
  cases pickLatest key xs with
  | none => simp
  | some y => by_cases h : key x < key y <;> simp [h]

theorem pickLatest_mem {α : Type} {key : α → Int} {l : List α} {m : α}
    (h : pickLatest key l = some m) : m ∈ l := by
  induction l generalizing m with
  | nil => simp [pickLatest] at h
  | cons x xs ih =>
    unfold pickLatest at h
    cases hp : pickLatest key xs with
    | none =>
      simp only [hp, Option.some.injEq] at h
      subst h
      exact List.mem_cons_self x xs
    | some y =>
      simp only [hp] at h
      by_cases hk : key x < key y
      · rw [if_pos hk] at h
        simp only [Option.some.injEq] at h
        subst h
        exact List.mem_cons_of_mem x (ih hp)
      · rw [if_neg hk] at h
        simp only [Option.some.injEq] at h
        subst h
        exact List.mem_cons_self x xs

theorem pickLatest_maximal {α : Type} {key : α → Int} {l : List α} {m : α}
    (h : pickLatest key l = some m) : ∀ x ∈ l, key x ≤ key m := by
  induction l generalizing m with
  | nil => simp [pickLatest] at h
  | cons x xs ih =>
    intro z hz
    unfold pickLatest at h
    cases hp : pickLatest key xs with
    | none =>
      simp only [hp, Option.some.injEq] at h
      subst h
      rcases List.mem_cons.mp hz with hz | hz
      · subst hz; exact le_refl _
      · cases xs with
        | nil => simp at hz
        | cons w ws => exact absurd hp (pickLatest_ne_none key w ws)
    | some y =>
      simp only [hp] at h
      rcases List.mem_cons.mp hz with hz | hz
      · subst hz
        by_cases hk : key z < key y
        · rw [if_pos hk] at h
          simp only [Option.some.injEq] at h
          subst h
          omega
        · rw [if_neg hk] at h
          simp only [Option.some.injEq] at h
          subst h
          exact le_refl _
      · have hy := ih hp z hz
        by_cases hk : key x < key y
        · rw [if_pos hk] at h
          simp only [Option.some.injEq] at h
          subst h
          exact hy
        · rw [if_neg hk] at h
          simp only [Option.some.injEq] at h
          subst h
          omega

theorem joinRows_mem {db : Db0} {cid : String} {jr : JoinRow}
    (h : jr ∈ joinRows db cid) :
    jr.reading ∈ db.readings ∧ jr.reading.collar_id = some cid ∧
      ∀ m, jr.metric = some m → m ∈ db.metrics ∧ m.input_id = jr.reading.id := by
  unfold joinRows at h
  rw [List.mem_flatMap] at h
  obtain ⟨r, hr, hjr⟩ := h
  rw [List.mem_filter] at hr
  obtain ⟨hrmem, hrcid⟩ := hr
  by_cases he : (db.metrics.filter fun m => m.input_id = r.id).isEmpty
  · rw [if_pos he] at hjr
    simp only [List.mem_singleton] at hjr
    subst hjr
    refine ⟨hrmem, by simpa using hrcid, ?_⟩
    intro m hm
    simp at hm
  · rw [if_neg he] at hjr
    rw [List.mem_map] at hjr
    obtain ⟨m, hmmem, hjr⟩ := hjr
    subst hjr
    rw [List.mem_filter] at hmmem
    refine ⟨hrmem, by simpa using hrcid, ?_⟩
    intro m' hm'
    simp only [Option.some.injEq] at hm'
    subst hm'
    exact ⟨hmmem.1, by simpa using hmmem.2⟩

/-! ## Example inputs used by the witnesses -/

/-- An empty initial database for the first iteration. -/
def dbEx0 : Db0 := { readings := [], metrics := [], nextReadingId := 1, nextMetricId := 1 }

/-- An empty initial database for the second iteration. -/
def dbEx1 : Db1 := { readings := [], metrics := [], nextReadingId := 1, nextMetricId := 1 }

/-- Request `GET /ingest?dog_name=Muffin&temperature=38.2`. -/
def reqMuffinTemp : IngestReq :=
  { coat_type := none, breed := none, collar_id := none, dog_name := some "Muffin"
    height := none, weight := none, sex := none, temperature_irgun := none
    collar_orientation := none, temperature := some "38.2", stepcount := none
    caloriecount := none }

/-- Request `GET /ingest` with every parameter absent. -/
def reqNoName : IngestReq :=
  { coat_type := none, breed := none, collar_id := none, dog_name := none
    height := none, weight := none, sex := none, temperature_irgun := none
    collar_orientation := none, temperature := none, stepcount := none
    caloriecount := none }

/-! ## Claim theorems -/

/-- C3: the numeric coercion returns the equivalent finite number for
well-formed numeric inputs (finite numbers and numeric strings), returns
the absent marker for empty string, absent, null and non-numeric
strings, and never maps a non-finite coercion result to zero or any
other default. -/
theorem toNum_total_spec :
    (∀ q : ℚ, toNum (.numV (.finite q)) = some q) ∧
    (∀ (s : String) (q : ℚ), s ≠ "" → jsStringToNumber s = .finite q →
      toNum (.strV s) = some q) ∧
    toNum (.strV "") = none ∧
    toNum .undefined = none ∧
    toNum .null = none ∧
    (∀ s : String, jsStringToNumber s = .nan → toNum (.strV s) = none) ∧
    (∀ v : JSVal, (jsToNumber v).isFinite = false → toNum v = none) := by
  refine ⟨?_, ?_, by decide, by decide, by decide, ?_, ?_⟩
  · intro q
    simp [toNum, jsToNumber]
  · intro s q hs hq
    simp [toNum, jsToNumber, hs, hq]
  · intro s hq
    by_cases hs : s = ""
    · simp [toNum, hs]
    · simp [toNum, jsToNumber, hs, hq]
  · intro v hv
    unfold toNum
    by_cases hc : v = .undefined ∨ v = .null ∨ v = .strV ""
    · rw [if_pos hc]
    · rw [if_neg hc]
      cases hj : jsToNumber v <;> simp_all [JSNum.isFinite]

/-- Witness for C3 at the concrete numeric string `"38.2"`. -/
theorem toNum_total_spec_witness :
    toNum (.strV "38.2") = some (mkRat 191 5) :=
  toNum_total_spec.2.1 "38.2" (mkRat 191 5) (by decide) (by decide)

/-- C1: in `GET /ingest`, a store failure of the metric insert after a
successful reading insert rolls the whole transaction back — the
response is a server error carrying the store's message and the
database is exactly what it was before the request. -/
theorem ingest_metric_failure_rolls_back (req : IngestReq) (db : Db0) (now : Nat)
    (e : String) (fc : Option String)
    (hd : truthyQ req.dog_name = true) (hm : metricCond req = true) :
    ingestHandler req db now none (some e) fc = (.serverError e, db) := by
  simp [ingestHandler, hd, hm]

/-- Witness for C1: a concrete request whose metric insert fails. -/
theorem ingest_metric_failure_rolls_back_witness :
    ingestHandler reqMuffinTemp dbEx0 0 none (some "store error") none =
      (.serverError "store error", dbEx0) :=
  ingest_metric_failure_rolls_back reqMuffinTemp dbEx0 0 "store error" none
    (by decide) (by decide)

/-- C2: every `GET /ingest` request with a truthy `dog_name` performs
the reading insert unconditionally, and inserts a metric row — linked to
that very reading — exactly when at least one metric parameter coerces
to a non-absent number. -/
theorem ingest_write_shape (req : IngestReq) (db : Db0) (now : Nat)
    (hd : truthyQ req.dog_name = true) :
    ∃ r : ReadingRow,
      (ingestHandler req db now none none none).2.readings = db.readings ++ [r] ∧
      (metricCond req = true →
        ∃ m : MetricFkRow,
          (ingestHandler req db now none none none).2.metrics = db.metrics ++ [m] ∧
          m.input_id = r.id ∧
          (ingestHandler req db now none none none).1 = .okIngest r (some m)) ∧
      (metricCond req = false →
        (ingestHandler req db now none none none).2.metrics = db.metrics ∧
        (ingestHandler req db now none none none).1 = .okIngest r none) := by
  refine ⟨mkReading req db.nextReadingId now, ?_, ?_, ?_⟩
  · cases hm : metricCond req <;> simp [ingestHandler, hd, hm]
  · intro hm
    exact ⟨mkMetricFk req (mkReading req db.nextReadingId now).id db.nextMetricId now,
      by simp [ingestHandler, hd, hm], rfl, by simp [ingestHandler, hd, hm]⟩
  · intro hm
    exact ⟨by simp [ingestHandler, hd, hm], by simp [ingestHandler, hd, hm]⟩

/-- Witness for C2 at `dog_name=Muffin&temperature=38.2` on the empty
database. -/
theorem ingest_write_shape_witness :
    ∃ r : ReadingRow,
      (ingestHandler reqMuffinTemp dbEx0 0 none none none).2.readings =
        dbEx0.readings ++ [r] ∧
      (metricCond reqMuffinTemp = true →
        ∃ m : MetricFkRow,
          (ingestHandler reqMuffinTemp dbEx0 0 none none none).2.metrics =
            dbEx0.metrics ++ [m] ∧
          m.input_id = r.id ∧
          (ingestHandler reqMuffinTemp dbEx0 0 none none none).1 = .okIngest r (some m)) ∧
      (metricCond reqMuffinTemp = false →
        (ingestHandler reqMuffinTemp dbEx0 0 none none none).2.metrics = dbEx0.metrics ∧
        (ingestHandler reqMuffinTemp dbEx0 0 none none none).1 = .okIngest r none) :=
  ingest_write_shape reqMuffinTemp dbEx0 0 (by decide)

/-- C5: both ingestion endpoints reject a request without `dog_name`
with a 400 "dog_name is required" response and touch neither table,
whatever the store would have done. -/
theorem missing_dog_name_rejected :
    (∀ (req : IngestReq) (db : Db0) (now : Nat) (f1 f2 f3 : Option String),
      req.dog_name = none →
      ingestHandler req db now f1 f2 f3 = (.badRequest "dog_name is required", db)) ∧
    (∀ (body : BodyVal) (db : Db1) (now : Nat) (fi fc : Option String),
      (bodyFields body).dog_name = none →
      appHandler body db now fi fc = (.badRequest "dog_name is required", db)) := by
  constructor
  · intro req db now f1 f2 f3 h
    simp [ingestHandler, truthyQ, h]
  · intro body db now fi fc h
    simp [appHandler, truthyJ, h]

/-- Witness for C5: the all-absent request on both endpoints. -/
theorem missing_dog_name_rejected_witness :
    ingestHandler reqNoName dbEx0 0 none none none =
      (.badRequest "dog_name is required", dbEx0) ∧
    appHandler .missing dbEx1 0 none none =
      (.badRequest "dog_name is required", dbEx1) :=
  ⟨missing_dog_name_rejected.1 reqNoName dbEx0 0 none none none rfl,
    missing_dog_name_rejected.2 .missing dbEx1 0 none none rfl⟩

/-- Counterexample for C4 as stated: `limit=0` is not clamped to a page
size of 1 — `parseInt('0', 10)` is `0`, which is falsy, so `|| 100`
substitutes the default and the effective page size is 100. -/
theorem by_collar_limit_zero_cex :
    effLimit (some "0") = 100 ∧ effLimit (some "0") ≠ 1 := by
  constructor <;> decide

/-- C4 (amended): the effective page size is the parsed `limit` clamped
to `[1, 1000]` whenever `limit` parses to a nonzero integer; when it is
unparseable or parses to 0 (both falsy) the default 100 is used, so
`limit=2000` yields 1000 but `limit=0` yields 100.  The effective offset
is the parsed `offset` clamped to `[0, ∞)`, with default 0 when
unparseable. -/
theorem by_collar_clamp_amended :
    (∀ (s : Option String) (v : Int),
      parseIntTen (s.getD "100") = some v → v ≠ 0 →
      effLimit s = max 1 (min 1000 v)) ∧
    (∀ s : Option String,
      parseIntTen (s.getD "100") = some 0 ∨ parseIntTen (s.getD "100") = none →
      effLimit s = 100) ∧
    (∀ (s : Option String) (v : Int),
      parseIntTen (s.getD "0") = some v → effOffset s = max 0 v) ∧
    (∀ s : Option String, parseIntTen (s.getD "0") = none → effOffset s = 0) ∧
    effLimit (some "2000") = 1000 ∧
    effLimit (some "0") = 100 ∧
    effLimit none = 100 ∧
    effOffset none = 0 := by
  refine ⟨?_, ?_, ?_, ?_, by decide, by decide, by decide, by decide⟩
  · intro s v hv hnz
    simp [effLimit, orDefault, hv, hnz]
  · intro s hv
    rcases hv with hv | hv <;> simp [effLimit, orDefault, hv]
  · intro s v hv
    by_cases hnz : v = 0
    · subst hnz
      simp [effOffset, orDefault, hv]
    · simp [effOffset, orDefault, hv, hnz]
  · intro s hv
    simp [effOffset, orDefault, hv]

/-- Witness for the amended C4 at `limit="7"` and `offset="3"`. -/
theorem by_collar_clamp_amended_witness :
    effLimit (some "7") = max 1 (min 1000 7) ∧ effOffset (some "3") = max 0 3 :=
  ⟨by_collar_clamp_amended.1 (some "7") 7 (by decide) (by decide),
    by_collar_clamp_amended.2.2.1 (some "3") 3 (by decide)⟩

/-- C6: `GET /collar` responds 400 when `collar_id` is missing, 405 with
no write when `collar_id` is present but no output metric parameter is,
and otherwise inserts exactly one metric row keyed by `collar_id` (no
reading lookup) and answers 200 with that row. -/
theorem collar_endpoint_spec :
    (∀ (pd : String → Int) (req : CollarReq) (db : Db1) (now : Nat) (fi : Option String),
      req.collar_id = none →
      collarHandler pd req db now fi = (.badRequest "collar_id is required", db)) ∧
    (∀ (pd : String → Int) (req : CollarReq) (db : Db1) (now : Nat) (fi : Option String)
        (cid : String),
      req.collar_id = some cid → cid ≠ "" → hasOutputData req = false →
      collarHandler pd req db now fi =
        (.methodNotAllowed
          "GET /collar is insert-only; provide output metric query parameters to insert", db)) ∧
    (∀ (pd : String → Int) (req : CollarReq) (db : Db1) (now : Nat) (cid : String),
      req.collar_id = some cid → cid ≠ "" → hasOutputData req = true →
      ∃ m : MetricCidRow,
        collarHandler pd req db now none =
          (.okOutput m,
            { db with metrics := db.metrics ++ [m], nextMetricId := db.nextMetricId + 1 }) ∧
        m.collar_id = some cid) := by
  refine ⟨?_, ?_, ?_⟩
  · intro pd req db now fi h
    simp [collarHandler, truthyQ, h]
  · intro pd req db now fi cid hc hne hm
    simp [collarHandler, truthyQ, hc, hne, hm]
  · intro pd req db now cid hc hne hm
    refine ⟨mkMetricCid pd req db.nextMetricId now, ?_, ?_⟩
    · simp [collarHandler, truthyQ, hc, hne, hm]
    · simp [mkMetricCid, hc]

/-- The request `GET /collar?collar_id=1&temperature=38.2`. -/
def reqCollarTemp : CollarReq :=
  { collar_id := some "1", limit := none, offset := none
    temperature := some "38.2", stepcount := none, caloriecount := none
    accel_x := none, accel_y := none, accel_z := none
    gyro_x := none, gyro_y := none, gyro_z := none, npl_time := none }

/-- Witness for C6 at a concrete insert request. -/
theorem collar_endpoint_spec_witness :
    ∃ m : MetricCidRow,
      collarHandler (fun _ => 0) reqCollarTemp dbEx1 0 none =
        (.okOutput m,
          { dbEx1 with metrics := dbEx1.metrics ++ [m],
                       nextMetricId := dbEx1.nextMetricId + 1 }) ∧
      m.collar_id = some "1" :=
  collar_endpoint_spec.2.2 (fun _ => 0) reqCollarTemp dbEx1 0 "1" rfl (by decide) (by decide)

/-- C10: `POST /app` with a missing or non-object body never fails — the
guarded destructuring makes it behave exactly like a body with every
field absent, producing the 400 missing-`dog_name` response and no
database access. -/
theorem app_body_guarded :
    (∀ (db : Db1) (now : Nat) (fi fc : Option String),
      appHandler .missing db now fi fc = appHandler (.obj AppBody.empty) db now fi fc) ∧
    (∀ (b : BodyVal) (db : Db1) (now : Nat) (fi fc : Option String),
      (∀ f : AppBody, b ≠ .obj f) →
      appHandler b db now fi fc = (.badRequest "dog_name is required", db)) := by
  constructor
  · intro db now fi fc
    rfl
  · intro b db now fi fc hb
    have hf : bodyFields b = AppBody.empty := by
      cases b with
      | obj f => exact absurd rfl (hb f)
      | missing => rfl
      | nullB => rfl
      | boolB x => rfl
      | numB x => rfl
      | strB x => rfl
    simp [appHandler, hf, truthyJ, AppBody.empty]

/-- Witness for C10: a string body (truthy but not an object). -/
theorem app_body_guarded_witness :
    appHandler (.strB "hello") dbEx1 0 none none =
      (.badRequest "dog_name is required", dbEx1) :=
  app_body_guarded.2 (.strB "hello") dbEx1 0 none none (fun f h => by cases h)

/-- C7: for each collar token `n ∈ {1..6}`, `GET /{n}` responds 404 when
no metric row carries that collar id; otherwise it returns a metric row
maximal under `COALESCE(npl_time, created_at)` descending, together with
the latest matching reading, and a missing reading is reported as null
rather than an error. -/
theorem latest_endpoint_spec (n : Nat) (db : Db1) (h1 : 1 ≤ n) (h6 : n ≤ 6) :
    ((db.metrics.filter fun m => m.collar_id = some (toString n)) = [] →
      numHandler (toString n) db = (.notFound "no output data for collar_id", db)) ∧
    ((db.metrics.filter fun m => m.collar_id = some (toString n)) ≠ [] →
      ∃ m, latestMetricFor db (toString n) = some m) ∧
    (∀ m, latestMetricFor db (toString n) = some m →
      numHandler (toString n) db = (.okLatest (latestReadingFor db (toString n)) m, db) ∧
      m ∈ db.metrics ∧ m.collar_id = some (toString n) ∧
      ∀ m' ∈ db.metrics, m'.collar_id = some (toString n) → metricKey m' ≤ metricKey m) ∧
    ((db.readings.filter fun r => r.collar_id = some (.strV (toString n))) = [] →
      latestReadingFor db (toString n) = none) ∧
    (∀ r, latestReadingFor db (toString n) = some r →
      r ∈ db.readings ∧ r.collar_id = some (.strV (toString n)) ∧
      ∀ r' ∈ db.readings, r'.collar_id = some (.strV (toString n)) →
        r'.created_at ≤ r.created_at) := by
  refine ⟨?_, ?_, ?_, ?_, ?_⟩
  · intro hfil
    simp [numHandler, latestMetricFor, hfil, pickLatest]
  · intro hfil
    rcases hlist : db.metrics.filter (fun m => m.collar_id = some (toString n)) with _ | ⟨x, xs⟩
    · exact absurd hlist hfil
    · unfold latestMetricFor
      rw [hlist]
      rcases hres : pickLatest metricKey (x :: xs) with _ | m
      · exact absurd hres (pickLatest_ne_none metricKey x xs)
      · exact ⟨m, rfl⟩
  · intro m hm
    have hmem := pickLatest_mem hm
    rw [List.mem_filter] at hmem
    refine ⟨by simp [numHandler, hm], hmem.1, by simpa using hmem.2, ?_⟩
    intro m' hm' hcid
    exact pickLatest_maximal hm m' (List.mem_filter.mpr ⟨hm', by simpa using hcid⟩)
  · intro hfil
    simp [latestReadingFor, hfil, pickLatest]
  · intro r hr
    have hmem := pickLatest_mem hr
    rw [List.mem_filter] at hmem
    refine ⟨hmem.1, by simpa using hmem.2, ?_⟩
    intro r' hr' hcid
    have hkey := pickLatest_maximal hr r' (List.mem_filter.mpr ⟨hr', by simpa using hcid⟩)
    exact_mod_cast hkey

/-- A metric row for collar "1" used by the C7 witness. -/
def metricEx1 : MetricCidRow :=
  { id := 1, collar_id := some "1", temperature := some 38, stepcount := none
    caloriecount := none, accel_x := none, accel_y := none, accel_z := none
    gyro_x := none, gyro_y := none, gyro_z := none, npl_time := some 50, created_at := 7 }

/-- A database holding exactly that metric row. -/
def dbOneMetric : Db1 :=
  { readings := [], metrics := [metricEx1], nextReadingId := 1, nextMetricId := 2 }

/-- Witness for C7 at collar 1 on a database with one matching metric. -/
theorem latest_endpoint_spec_witness :
    numHandler (toString 1) dbOneMetric =
      (.okLatest (latestReadingFor dbOneMetric (toString 1)) metricEx1, dbOneMetric) ∧
    metricEx1 ∈ dbOneMetric.metrics :=
  have h := (latest_endpoint_spec 1 dbOneMetric (by decide) (by decide)).2.2.1 metricEx1 (by decide)
  ⟨h.1, h.2.1⟩

/-- C8: `GET /by-collar` responds 400 when `collar_id` is missing, and
otherwise returns a page of the reading/metric join for that collar,
ordered by reading creation time descending with ties broken by metric
creation time descending and null metrics last. -/
theorem by_collar_page_spec :
    (∀ (req : ByCollarReq) (db : Db0), req.collar_id = none →
      byCollarHandler req db = (.badRequest "collar_id is required", db)) ∧
    (∀ (req : ByCollarReq) (db : Db0) (cid : String),
      req.collar_id = some cid → cid ≠ "" →
      ∃ rows : List JoinRow,
        byCollarHandler req db = (.okPage rows.length rows, db) ∧
        rows.Sorted pageLe ∧
        rows = (((joinRows db cid).insertionSort pageLe).drop
            (effOffset req.offset).toNat).take (effLimit req.limit).toNat ∧
        ∀ jr ∈ rows, jr.reading ∈ db.readings ∧ jr.reading.collar_id = some cid ∧
          ∀ m, jr.metric = some m → m ∈ db.metrics ∧ m.input_id = jr.reading.id) := by
  constructor
  · intro req db h
    simp [byCollarHandler, truthyQ, h]
  · intro req db cid hc hne
    refine ⟨(((joinRows db cid).insertionSort pageLe).drop
      (effOffset req.offset).toNat).take (effLimit req.limit).toNat, ?_, ?_, rfl, ?_⟩
    · simp [byCollarHandler, truthyQ, hc, hne]
    · exact (List.sorted_insertionSort pageLe (joinRows db cid)).sublist
        ((List.take_sublist _ _).trans (List.drop_sublist _ _))
    · intro jr hjr
      have hsorted : jr ∈ (joinRows db cid).insertionSort pageLe :=
        ((List.take_sublist _ _).trans (List.drop_sublist _ _)).mem hjr
      exact joinRows_mem ((List.mem_insertionSort pageLe).mp hsorted)

/-- Witness for C8: a one-reading database paged with default limit. -/
theorem by_collar_page_spec_witness :
    ∃ rows : List JoinRow,
      byCollarHandler ⟨some "C9", none, none⟩ dbEx0 = (.okPage rows.length rows, dbEx0) ∧
      rows.Sorted pageLe ∧
      rows = (((joinRows dbEx0 "C9").insertionSort pageLe).drop
          (effOffset none).toNat).take (effLimit none).toNat ∧
      ∀ jr ∈ rows, jr.reading ∈ dbEx0.readings ∧ jr.reading.collar_id = some "C9" ∧
        ∀ m, jr.metric = some m → m ∈ dbEx0.metrics ∧ m.input_id = jr.reading.id :=
  by_collar_page_spec.2 ⟨some "C9", none, none⟩ dbEx0 "C9" rfl (by decide)

/-- C9: every route handler of both iterations is append-only — the rows
present before a request form a prefix of the rows present after it,
whatever the request, failure injection and outcome, so no existing row
is ever updated or deleted. -/
theorem handlers_append_only :
    (∀ (req : IngestReq) (db : Db0) (now : Nat) (f1 f2 f3 : Option String),
      List.IsPrefix db.readings (ingestHandler req db now f1 f2 f3).2.readings ∧
      List.IsPrefix db.metrics (ingestHandler req db now f1 f2 f3).2.metrics) ∧
    (∀ (req : ByCollarReq) (db : Db0), (byCollarHandler req db).2 = db) ∧
    (∀ db : Db0, (rootHandler0 db).2 = db) ∧
    (∀ (body : BodyVal) (db : Db1) (now : Nat) (fi fc : Option String),
      List.IsPrefix db.readings (appHandler body db now fi fc).2.readings ∧
      List.IsPrefix db.metrics (appHandler body db now fi fc).2.metrics) ∧
    (∀ (pd : String → Int) (req : CollarReq) (db : Db1) (now : Nat) (fi : Option String),
      List.IsPrefix db.readings (collarHandler pd req db now fi).2.readings ∧
      List.IsPrefix db.metrics (collarHandler pd req db now fi).2.metrics) ∧
    (∀ (cid : String) (db : Db1), (numHandler cid db).2 = db) ∧
    (∀ db : Db1, (rootHandler1 db).2 = db) := by
  refine ⟨?_, ?_, fun _ => rfl, ?_, ?_, ?_, fun _ => rfl⟩
  · intro req db now f1 f2 f3
    rcases h1 : truthyQ req.dog_name <;> rcases h2 : metricCond req <;>
      cases f1 <;> cases f2 <;> cases f3 <;>
      constructor <;>
      simp [ingestHandler, h1, h2, List.prefix_append]
  · intro req db
    rcases h : truthyQ req.collar_id <;> simp [byCollarHandler, h]
  · intro body db now fi fc
    rcases h : truthyJ (bodyFields body).dog_name <;> cases fi <;> cases fc <;>
      constructor <;>
      simp [appHandler, h, List.prefix_append]
  · intro pd req db now fi
    rcases h1 : truthyQ req.collar_id <;> rcases h2 : hasOutputData req <;> cases fi <;>
      constructor <;>
      simp [collarHandler, h1, h2, List.prefix_append]
  · intro cid db
    unfold numHandler
    cases h : latestMetricFor db cid <;> rfl
